import Mathlib

/-!
# VisCL: GPU resource manager and adaptive Hessian keypoint detection

A shallow embedding of `libraries/cl_manager.cxx` and
`libraries/viscl/tasks/hessian.cxx`.

Modelling conventions

* `size_t` is 64 bits wide and `unsigned` / `int` are 32 bits wide (LP64).
  Machine values are natural numbers; every arithmetic step that can leave
  the range of its C++ type is reduced explicitly.
* The OpenCL runtime is external.  It rejects a buffer request of zero bytes
  with `CL_INVALID_BUFFER_SIZE`, and the C++ bindings then throw `cl::Error`
  (the sources catch that class, so exceptions are enabled); the sources pass
  such a request on unguarded.  Every other call to the device allocator is
  taken to succeed and is recorded in the manager's allocation log; the
  handle of an allocation is its position in that log.  Commands submitted to a command
  queue are recorded, in order, in the queue's log.  A kernel launch records
  the kernel's argument bindings at the moment of the launch.
* A `cl::Error` thrown inside `detect` leaves the call; the model returns the
  error together with the task and manager states at the throw.
* The device kernels are opaque.  The value they leave in the count buffer is
  an input of `detect` (`dev_count`, the `int` found by the blocking read).
* Float values are kept symbolic (`cl_float`), no float arithmetic is
  evaluated.
-/

namespace viscl

/-! ## Machine integers -/

/-- Number of values of a 64-bit `size_t`. -/
def SIZE_T_RANGE : Nat := 2 ^ 64

/-- Number of values of a 32-bit `unsigned`. -/
def UNSIGNED_RANGE : Nat := 2 ^ 32

/-- Conversion of an `int` value to `unsigned` (value modulo 2^32). -/
def int_to_unsigned (x : Int) : Nat := (x % 4294967296).toNat

/-! ## Device objects -/

/-- Symbolic single-precision value: a bit pattern or a product of two values. -/
inductive cl_float where
  | val (bits : Nat)
  | mul (a b : cl_float)
  deriving DecidableEq

/-- Element types used to instantiate `create_buffer<T>`. -/
inductive elem_type where
  | cl_float2
  | cl_int2
  | cl_float
  | int
  | vxl_byte
  deriving DecidableEq

/-- Value of `sizeof(T)` for each element type. -/
def sizeof : elem_type → Nat
  | .cl_float2 => 8
  | .cl_int2 => 8
  | .cl_float => 4
  | .int => 4
  | .vxl_byte => 1

/-- Channel order of a `cl::ImageFormat`. -/
inductive channel_order where
  | CL_R
  | CL_INTENSITY
  deriving DecidableEq

/-- Channel data type of a `cl::ImageFormat`. -/
inductive channel_type where
  | CL_FLOAT
  | CL_SIGNED_INT32
  | CL_UNORM_INT8
  deriving DecidableEq

/-- Device image-format descriptor `cl::ImageFormat(order, type)`. -/
structure ImageFormat where
  order : channel_order
  type : channel_type
  deriving DecidableEq

/-- Memory flag `CL_MEM_READ_WRITE`. -/
def CL_MEM_READ_WRITE : Nat := 1

/-- Memory flag `CL_MEM_READ_ONLY`. -/
def CL_MEM_READ_ONLY : Nat := 4

/-- Memory flag `CL_MEM_COPY_HOST_PTR`. -/
def CL_MEM_COPY_HOST_PTR : Nat := 32

/-- One call to the device allocator (a `cl::Buffer` or `cl::Image2D`
constructor), with the arguments it was given.  The element type of a buffer
request is the template parameter of the `create_buffer<T>` that issued it. -/
inductive alloc where
  | Buffer (flags : Nat) (bytes : Nat) (elem : elem_type)
  | Image2D (flags : Nat) (fmt : ImageFormat) (ni nj : Nat) (row_pitch : Nat)
      (host_ptr : Option Nat)
  deriving DecidableEq

/-- A `cl::Image2D` held through a shared pointer. -/
structure Image2D where
  handle : Nat
  fmt : ImageFormat
  ni : Nat
  nj : Nat
  deriving DecidableEq

/-- Modelled from the spec: the wrapper class is declared in a header that is
not among the sources.  The `cl_image` / `image` wrapper is a possibly null
shared pointer to an `Image2D`; the default-constructed wrapper `cl_image()`
is `none`. -/
abbrev cl_image := Option Image2D

/-- Modelled from the spec: the wrapper class is declared in a header that is
not among the sources.  The `cl_buffer` / `buffer` wrapper holds the device
allocation plus the remembered element length, as the constructor call in
`create_buffer` shows. -/
structure cl_buffer where
  handle : Nat
  bytes : Nat
  elem : elem_type
  len : Nat
  deriving DecidableEq

/-- Byte size of the device allocation, `buffer::mem_size()`. -/
def cl_buffer.mem_size (b : cl_buffer) : Nat := b.bytes

/-! ## The resource manager (`cl_manager.cxx`) -/

/-- Host pixel-format tag of the external image library (an enumeration,
kept as its integer value). -/
abbrev vil_pixel_format := Nat

/-- Tag of single-byte pixels in the external enumeration (the two tags used
here are distinct enumerators). -/
def VIL_PIXEL_FORMAT_BYTE : vil_pixel_format := 7

/-- Tag of single-precision float pixels in the external enumeration. -/
def VIL_PIXEL_FORMAT_FLOAT : vil_pixel_format := 9

/-- The part of a host image view `vil_image_view<T>` that `create_image`
reads: its pixel-format tag, its size and the address of its first pixel. -/
structure vil_image_view where
  pixel_format : vil_pixel_format
  ni : Nat
  nj : Nat
  top_left_ptr : Nat
  deriving DecidableEq

/-- The `std::map` member lookup `find`: `none` stands for `end()`. -/
def map_find (m : List (vil_pixel_format × ImageFormat)) (k : vil_pixel_format) :
    Option ImageFormat :=
  match m with
  | [] => none
  | (k1, v) :: rest => if k = k1 then some v else map_find rest k

/-- The `std::map` assignment `m[k] = v`: replaces the value of an existing
key, otherwise adds the entry. -/
def map_assign (m : List (vil_pixel_format × ImageFormat)) (k : vil_pixel_format)
    (v : ImageFormat) : List (vil_pixel_format × ImageFormat) :=
  match m with
  | [] => [(k, v)]
  | (k1, v1) :: rest => if k = k1 then (k, v) :: rest else (k1, v1) :: map_assign rest k v

/-- Modelled from the spec: the class is declared in `cl_manager.h`, which is
not among the sources.  State of the manager: the pixel-format table and the
log of the calls made to the device allocator against its context.  The
`manager::inst()` that `hessian.cxx` calls is this manager. -/
structure cl_manager where
  pixel_format_map : List (vil_pixel_format × ImageFormat)
  context : List alloc
  deriving DecidableEq

/-- Source `cl_manager::make_pixel_format_map`. -/
def cl_manager.make_pixel_format_map (m : cl_manager) : cl_manager :=
  let t1 := map_assign m.pixel_format_map VIL_PIXEL_FORMAT_FLOAT ⟨.CL_INTENSITY, .CL_FLOAT⟩
  let t2 := map_assign t1 VIL_PIXEL_FORMAT_BYTE ⟨.CL_INTENSITY, .CL_UNORM_INT8⟩
  { m with pixel_format_map := t2 }

/-- Source constructor `cl_manager::cl_manager`: after `init_opencl` (platform
and context selection, nothing allocated yet, table empty) it fills the
pixel-format table. -/
def cl_manager.new : cl_manager :=
  cl_manager.make_pixel_format_map ⟨[], []⟩

/-- Source `cl_manager::create_image<T>(const vil_image_view<T> &)`. -/
def cl_manager.create_image (m : cl_manager) (img : vil_image_view) : cl_manager × cl_image :=
  let pf := img.pixel_format
  match map_find m.pixel_format_map pf with
  | none => (m, none)
  | some img_fmt =>
    ({ m with context := m.context ++
        [alloc.Image2D (CL_MEM_READ_ONLY ||| CL_MEM_COPY_HOST_PTR) img_fmt img.ni img.nj 0
          (some img.top_left_ptr)] },
     some ⟨m.context.length, img_fmt, img.ni, img.nj⟩)

/-- Source `cl_manager::create_image(const cl::ImageFormat &, cl_mem_flags,
size_t, size_t)`.  The wrapper it returns is never null; the `Image2D` it
wraps is returned. -/
def cl_manager.create_image_fmt (m : cl_manager) (img_frmt : ImageFormat) (flags : Nat)
    (ni nj : Nat) : cl_manager × Image2D :=
  ({ m with context := m.context ++ [alloc.Image2D flags img_frmt ni nj 0 none] },
   ⟨m.context.length, img_frmt, ni, nj⟩)

/-- Error codes with which the runtime rejects a request; the C++ bindings
turn them into a thrown `cl::Error`. -/
inductive cl_error where
  | CL_INVALID_BUFFER_SIZE
  deriving DecidableEq

/-- Source `cl_manager::create_buffer<T>(cl_mem_flags, size_t)`: requests
`len * sizeof(T)` bytes (in `size_t` arithmetic) and remembers `len`.  A
request of zero bytes is rejected by the runtime and the `cl::Buffer`
constructor throws; nothing is allocated then. -/
def cl_manager.create_buffer (m : cl_manager) (T : elem_type) (flags : Nat) (len : Nat) :
    Except cl_error (cl_manager × cl_buffer) :=
  let bytes := len * sizeof T % SIZE_T_RANGE
  if bytes = 0 then .error .CL_INVALID_BUFFER_SIZE
  else
    .ok ({ m with context := m.context ++ [alloc.Buffer flags bytes T] },
         ⟨m.context.length, bytes, T, len⟩)

/-! ## The detection task (`hessian.cxx`) -/

/-- The four kernels of the `hessian` program held by the task. -/
inductive kernel_name where
  | det_hessian
  | detect_extrema
  | detect_extrema_subpix
  | init_kpt_map
  deriving DecidableEq

/-- A value bound to a kernel argument by `setArg`. -/
inductive arg where
  | image (i : Image2D)
  | buffer (b : cl_buffer)
  | uint (n : Nat)
  | float (x : cl_float)
  deriving DecidableEq

/-- Argument bindings of a kernel, kept sorted by argument index. -/
abbrev cl_kernel := List (Nat × arg)

/-- The kernel method `setArg(i, a)`: binds argument `i`, replacing an earlier
binding of the same index. -/
def setArg (k : cl_kernel) (i : Nat) (a : arg) : cl_kernel :=
  match k with
  | [] => [(i, a)]
  | (j, b) :: rest =>
    if i = j then (i, a) :: rest
    else if i < j then (i, a) :: (j, b) :: rest
    else (j, b) :: setArg rest i a

/-- The value currently bound to argument `i` of a kernel, if any. -/
def getArg (k : cl_kernel) (i : Nat) : Option arg :=
  match k with
  | [] => none
  | (j, b) :: rest => if i = j then some b else getArg rest i

/-- A command submitted to a `cl::CommandQueue`, with the arguments of the
call.  A kernel launch carries the kernel, its argument bindings at the time
of the launch and the global range (offset and local range are `NullRange`). -/
inductive command where
  | enqueueWriteBuffer (b : cl_buffer) (blocking : Bool) (offset size : Nat) (data : List Int)
  | enqueueReadBuffer (b : cl_buffer) (blocking : Bool) (offset size : Nat)
  | enqueueNDRangeKernel (k : kernel_name) (args : cl_kernel) (global : Nat × Nat)
  | enqueueBarrier
  | finish
  deriving DecidableEq

/-- Modelled from the spec: the class is declared in `hessian.h`, which is not
among the sources.  State of a `hessian` task: its four kernels, the
remembered capacity `kpts_buffer_size_` and the log of its command queue.
The capacity is a 32-bit `unsigned`: it is assigned the `unsigned` results of
`max_kpts / 100` and `std::min`, and it is bound to kernel argument 4
interchangeably with the `unsigned num_detected`. -/
structure hessian where
  det_hessian : cl_kernel
  detect_extrema : cl_kernel
  detect_extrema_subpix : cl_kernel
  init_kpt_map : cl_kernel
  kpts_buffer_size_ : Nat
  queue : List command
  deriving DecidableEq

/-- Source constructor `hessian::hessian`: fresh kernels, capacity 0, a fresh
queue. -/
def hessian.new : hessian :=
  ⟨[], [], [], [], 0, []⟩

/-- The kernel object a kernel handle refers to. -/
def hessian.kernel (self : hessian) : kernel_name → cl_kernel
  | .det_hessian => self.det_hessian
  | .detect_extrema => self.detect_extrema
  | .detect_extrema_subpix => self.detect_extrema_subpix
  | .init_kpt_map => self.init_kpt_map

/-- The call `k->setArg(i, a)` through a kernel handle of the task. -/
def hessian.setArg (self : hessian) (k : kernel_name) (i : Nat) (a : arg) : hessian :=
  match k with
  | .det_hessian => { self with det_hessian := viscl.setArg self.det_hessian i a }
  | .detect_extrema => { self with detect_extrema := viscl.setArg self.detect_extrema i a }
  | .detect_extrema_subpix =>
    { self with detect_extrema_subpix := viscl.setArg self.detect_extrema_subpix i a }
  | .init_kpt_map => { self with init_kpt_map := viscl.setArg self.init_kpt_map i a }

/-- Submission of a command to the task's queue. -/
def hessian.enqueue (self : hessian) (c : command) : hessian :=
  { self with queue := self.queue ++ [c] }

/-- An assignment to the member `kpts_buffer_size_`. -/
def hessian.assign_capacity (self : hessian) (v : Nat) : hessian :=
  { self with kpts_buffer_size_ := v }

/-- The call `queue->enqueueNDRangeKernel(*k, NullRange, global, NullRange)`. -/
def hessian.enqueueNDRangeKernel (self : hessian) (k : kernel_name) (global : Nat × Nat) :
    hessian :=
  self.enqueue (.enqueueNDRangeKernel k (self.kernel k) global)

/-- Source `hessian::num_kpts`: a blocking read of the count buffer into an
`int`, returned as `unsigned`.  `dev_count` is the value the device holds. -/
def hessian.num_kpts (self : hessian) (numkpts_b : cl_buffer) (dev_count : Int) :
    hessian × Nat :=
  (self.enqueue (.enqueueReadBuffer numkpts_b true 0 numkpts_b.mem_size),
   int_to_unsigned dev_count)

/-- Line 79 of `hessian::detect`: `const unsigned max_kpts = ni * nj / 4`, the
product and quotient taken in `size_t`, the result narrowed to `unsigned`. -/
def max_kpts (ni nj : Nat) : Nat :=
  ni * nj % SIZE_T_RANGE / 4 % UNSIGNED_RANGE

/-- Lines 80 to 84 of `hessian::detect`: the value of `kpts_buffer_size_` used
for the first pass. -/
def hessian.initial_capacity (self : hessian) (ni nj : Nat) : Nat :=
  if self.kpts_buffer_size_ < 1 then max_kpts ni nj / 100 else self.kpts_buffer_size_

/-- What `hessian::detect` leaves behind: the task and manager states and the
four output parameters. -/
structure detect_result where
  self : hessian
  mgr : cl_manager
  kptmap : cl_image
  kpts : cl_buffer
  kvals : cl_buffer
  numkpts : cl_buffer
  deriving DecidableEq

/-- What is left behind when a `cl::Error` leaves `hessian::detect`: the
error, and the task and manager states at the moment of the throw. -/
structure detect_abort where
  err : cl_error
  self : hessian
  mgr : cl_manager
  deriving DecidableEq

/-- Lines 138 to 154 of `hessian::detect`: the body of the overflow branch. -/
def hessian.overflow_rerun (st : detect_result) (subpixel : Bool) (extrema : kernel_name)
    (global initsize : Nat × Nat) (num_detected : Nat) : Except detect_abort detect_result :=
  let self1 : hessian :=
    st.self.enqueue (.enqueueWriteBuffer st.numkpts true 0 st.numkpts.mem_size [0])
  match (if subpixel then st.mgr.create_buffer .cl_float2 CL_MEM_READ_WRITE num_detected
         else st.mgr.create_buffer .cl_int2 CL_MEM_READ_WRITE num_detected) with
  | .error e => .error ⟨e, self1, st.mgr⟩
  | .ok a1 =>
    let kpts : cl_buffer := a1.2
    match a1.1.create_buffer .cl_float CL_MEM_READ_WRITE num_detected with
    | .error e => .error ⟨e, self1, a1.1⟩
    | .ok a2 =>
      let kvals : cl_buffer := a2.2
      let self2 : hessian := self1.setArg extrema 2 (.buffer kpts)
      let self3 : hessian := self2.setArg extrema 3 (.buffer kvals)
      let self4 : hessian := self3.setArg extrema 4 (.uint num_detected)
      let self5 : hessian := self4.enqueueNDRangeKernel .init_kpt_map initsize
      let self6 : hessian := self5.enqueue .enqueueBarrier
      let self7 : hessian := self6.enqueueNDRangeKernel extrema global
      let self8 : hessian := self7.enqueue .finish
      .ok { st with self := self8, mgr := a2.1, kpts := kpts, kvals := kvals }

/-- Lines 77 to 134 of `hessian::detect`: everything up to and including the
read-back of the count.  Returns the state and `num_detected`. -/
def hessian.first_pass (self : hessian) (mgr : cl_manager) (smoothed : Image2D)
    (thresh sigma : cl_float) (subpixel : Bool) (dev_count : Int) :
    Except detect_abort (detect_result × Nat) :=
  let ni : Nat := smoothed.ni
  let nj : Nat := smoothed.nj
  let self0 : hessian := self.assign_capacity (self.initial_capacity ni nj)
  let detimg_fmt : ImageFormat := ⟨.CL_INTENSITY, .CL_FLOAT⟩
  let a1 : cl_manager × Image2D := mgr.create_image_fmt detimg_fmt CL_MEM_READ_WRITE ni nj
  let detimg : Image2D := a1.2
  let kptimg_fmt : ImageFormat := ⟨.CL_R, .CL_SIGNED_INT32⟩
  let a2 : cl_manager × Image2D :=
    a1.1.create_image_fmt kptimg_fmt CL_MEM_READ_WRITE (ni >>> 1) (nj >>> 1)
  let kptmap : Image2D := a2.2
  match (if subpixel then
          a2.1.create_buffer .cl_float2 CL_MEM_READ_WRITE self0.kpts_buffer_size_
         else a2.1.create_buffer .cl_int2 CL_MEM_READ_WRITE self0.kpts_buffer_size_) with
  | .error e => .error ⟨e, self0, a2.1⟩
  | .ok a3 =>
    let kpts : cl_buffer := a3.2
    let extrema : kernel_name := if subpixel then .detect_extrema_subpix else .detect_extrema
    match a3.1.create_buffer .cl_float CL_MEM_READ_WRITE self0.kpts_buffer_size_ with
    | .error e => .error ⟨e, self0, a3.1⟩
    | .ok a4 =>
      let kvals : cl_buffer := a4.2
      match a4.1.create_buffer .int CL_MEM_READ_WRITE 1 with
      | .error e => .error ⟨e, self0, a4.1⟩
      | .ok a5 =>
        let numkpts : cl_buffer := a5.2
        let self1 : hessian :=
          self0.enqueue (.enqueueWriteBuffer numkpts true 0 numkpts.mem_size [0])
        let self2 : hessian := self1.setArg .det_hessian 0 (.image smoothed)
        let self3 : hessian := self2.setArg .det_hessian 1 (.image detimg)
        let self4 : hessian := self3.setArg .det_hessian 2 (.float (.mul sigma sigma))
        let self5 : hessian := self4.setArg .init_kpt_map 0 (.image kptmap)
        let self6 : hessian := self5.setArg extrema 0 (.image detimg)
        let self7 : hessian := self6.setArg extrema 1 (.image kptmap)
        let self8 : hessian := self7.setArg extrema 2 (.buffer kpts)
        let self9 : hessian := self8.setArg extrema 3 (.buffer kvals)
        let self10 : hessian := self9.setArg extrema 4 (.uint self0.kpts_buffer_size_)
        let self11 : hessian := self10.setArg extrema 5 (.buffer numkpts)
        let self12 : hessian := self11.setArg extrema 6 (.float thresh)
        let global : Nat × Nat := (ni, nj)
        let initsize : Nat × Nat := (ni >>> 1, nj >>> 1)
        let self13 : hessian := self12.enqueueNDRangeKernel .det_hessian global
        let self14 : hessian := self13.enqueueNDRangeKernel .init_kpt_map initsize
        let self15 : hessian := self14.enqueue .enqueueBarrier
        let self16 : hessian := self15.enqueueNDRangeKernel extrema global
        let self17 : hessian := self16.enqueue .enqueueBarrier
        let r : hessian × Nat := self17.num_kpts numkpts dev_count
        .ok (⟨r.1, a5.1, some kptmap, kpts, kvals, numkpts⟩, r.2)

/-- Source `hessian::detect`.  The task is `mutable` in `kpts_buffer_size_`;
the manager is the process-wide singleton; `smoothed` is a non-null image.
The call returns its outputs, or is left by the `cl::Error` of a rejected
buffer request. -/
def hessian.detect (self : hessian) (mgr : cl_manager) (smoothed : Image2D)
    (thresh sigma : cl_float) (subpixel : Bool) (dev_count : Int) :
    Except detect_abort detect_result :=
  let ni : Nat := smoothed.ni
  let nj : Nat := smoothed.nj
  let max_kpts : Nat := max_kpts ni nj
  match self.first_pass mgr smoothed thresh sigma subpixel dev_count with
  | .error a => .error a
  | .ok p =>
    let num_detected : Nat := p.2
    let extrema : kernel_name := if subpixel then .detect_extrema_subpix else .detect_extrema
    let global : Nat × Nat := (ni, nj)
    let initsize : Nat × Nat := (ni >>> 1, nj >>> 1)
    match (if num_detected ≥ p.1.self.kpts_buffer_size_ then
            hessian.overflow_rerun p.1 subpixel extrema global initsize num_detected
           else .ok p.1) with
    | .error a => .error a
    | .ok st =>
      .ok { st with self :=
        st.self.assign_capacity (min (3 * num_detected % UNSIGNED_RANGE / 2) max_kpts) }

/-! ## Observations on a call of `detect` -/

/-- The commands appended to the task's queue between two task states. -/
def new_commands (before after : hessian) : List command :=
  after.queue.drop before.queue.length

/-- The allocator calls made between two manager states. -/
def new_allocs (before after : cl_manager) : List alloc :=
  after.context.drop before.context.length

/-- The extrema kernel selected by `subpixel` (lines 90 to 99). -/
def extrema_kernel (subpixel : Bool) : kernel_name :=
  if subpixel then .detect_extrema_subpix else .detect_extrema

/-- The coordinate element type selected by `subpixel` (lines 90 to 99):
pair of floats when subpixel positions are requested, pair of ints otherwise. -/
def kpts_elem (subpixel : Bool) : elem_type :=
  if subpixel then .cl_float2 else .cl_int2

/-- A command with the argument snapshot of a kernel launch removed. -/
def command.erase_args : command → command
  | .enqueueNDRangeKernel k _ g => .enqueueNDRangeKernel k [] g
  | c => c

/-- Whether a command is a blocking write of the single value 0. -/
def command.is_zero_write : command → Bool
  | .enqueueWriteBuffer _ blocking _ _ data => blocking && data == [0]
  | _ => false

/-- Whether a command is a launch of kernel `k`. -/
def command.is_launch (k : kernel_name) : command → Bool
  | .enqueueNDRangeKernel k1 _ _ => k1 == k
  | _ => false

/-- Scans a command sequence and checks that between two successive launches
of `extrema` there is a launch of the map-init kernel followed by a barrier.
State 0: an extrema launch was seen and no map-init launch since; state 1: a
map-init launch was seen and no barrier since; state 2: a further extrema
launch is allowed. -/
def launches_separated (extrema : kernel_name) : Nat → List command → Bool
  | _, [] => true
  | st, .enqueueNDRangeKernel k _ _ :: cs =>
    if k = extrema then st == 2 && launches_separated extrema 0 cs
    else if k = .init_kpt_map then launches_separated extrema (if st = 0 then 1 else st) cs
    else launches_separated extrema st cs
  | st, .enqueueBarrier :: cs => launches_separated extrema (if st = 1 then 2 else st) cs
  | st, _ :: cs => launches_separated extrema st cs

/-- The count buffer `detect` allocates: the fifth allocation of the call, one
`int`. -/
def count_buffer (mgr : cl_manager) : cl_buffer :=
  ⟨mgr.context.length + 4, 4, .int, 1⟩

/-- The two images every call of `detect` creates before its first buffer
request: the response image and the half-resolution keypoint map. -/
def working_images (smoothed : Image2D) : List alloc :=
  [alloc.Image2D CL_MEM_READ_WRITE ⟨.CL_INTENSITY, .CL_FLOAT⟩ smoothed.ni smoothed.nj 0 none,
   alloc.Image2D CL_MEM_READ_WRITE ⟨.CL_R, .CL_SIGNED_INT32⟩
     (smoothed.ni / 2) (smoothed.nj / 2) 0 none]

/-- The two ways a call of `detect` (or its first pass) on the task `self`
ends.  When the first-pass coordinate buffer has zero bytes (both coordinate
element types take 8 bytes; for a capacity in the range of `unsigned` this
means capacity 0) its request is rejected: the call is left by
`CL_INVALID_BUFFER_SIZE` with the two working images created, no command
submitted and no count read back.  Otherwise the call returns, and `P` holds
of what it returns. -/
def hessian.unless_rejected {α : Type} (self : hessian) (mgr : cl_manager)
    (smoothed : Image2D) (res : Except detect_abort α) (P : α → Prop) : Prop :=
  match res with
  | .error a =>
    self.initial_capacity smoothed.ni smoothed.nj * 8 % SIZE_T_RANGE = 0 ∧
    a.err = .CL_INVALID_BUFFER_SIZE ∧
    new_commands self a.self = [] ∧
    new_allocs mgr a.mgr = working_images smoothed
  | .ok r =>
    self.initial_capacity smoothed.ni smoothed.nj * 8 % SIZE_T_RANGE ≠ 0 ∧ P r

/-- A manager on which one working image of the given size was created, as the
smoothing step does before `detect` is called. -/
def sample_mgr (ni nj : Nat) : cl_manager :=
  (cl_manager.new.create_image_fmt ⟨.CL_INTENSITY, .CL_FLOAT⟩ CL_MEM_READ_WRITE ni nj).1

/-- The image created on `sample_mgr`. -/
def sample_image (ni nj : Nat) : Image2D :=
  (cl_manager.new.create_image_fmt ⟨.CL_INTENSITY, .CL_FLOAT⟩ CL_MEM_READ_WRITE ni nj).2

/-- Whether a command, when it is a launch of one of the two extrema kernels,
carries a capacity (argument 4) equal to the element length of the coordinate
buffer (argument 2) and of the score buffer (argument 3) bound at the launch. -/
def command.capacity_matches : command → Bool
  | .enqueueNDRangeKernel k args _ =>
    if k = .detect_extrema ∨ k = .detect_extrema_subpix then
      match getArg args 2, getArg args 3, getArg args 4 with
      | some (.buffer b2), some (.buffer b3), some (.uint n) => b2.len == n && b3.len == n
      | _, _, _ => false
    else true
  | _ => true

/-! ## Device capability report (`cl_manager::report_system_specs`) -/

/-- The classification `isspace` of the classic locale, which stream
extraction uses to delimit tokens: space, tab, line feed, vertical tab, form
feed, carriage return. -/
def isspace (c : Char) : Bool :=
  c.toNat = 32 || (9 ≤ c.toNat && c.toNat ≤ 13)

/-- The constant `double_extension`, the string `cl_khr_fp64`. -/
def double_extension : List Char :=
  ['c', 'l', '_', 'k', 'h', 'r', '_', 'f', 'p', '6', '4']

/-- The extraction `extensions >> extension` on the unread characters of the
stream: leading whitespace is skipped, then characters are taken up to the
next whitespace or the end of the stream.  The extraction fails (`none`) when
no character is taken; otherwise it yields the token and the unread rest. -/
def extract (s : List Char) : Option (List Char × List Char) :=
  let s1 := s.dropWhile isspace
  let tok := s1.takeWhile (fun c => !isspace c)
  if tok = [] then none else some (tok, s1.dropWhile (fun c => !isspace c))

/-- Lines 148 to 152 of `report_system_specs`: the loop
`while (extensions >> extension) if (extension == double_extension) ...`,
run for at most `fuel` extractions. -/
def scan_extensions : Nat → List Char → Bool → Bool
  | 0, _, has_double_extension => has_double_extension
  | fuel + 1, s, has_double_extension =>
    match extract s with
    | none => has_double_extension
    | some (extension, rest) =>
      scan_extensions fuel rest
        (if extension = double_extension then true else has_double_extension)

/-- Lines 139 to 154 of `report_system_specs`: the value of
`has_double_extension` that is reported, given the bytes `buf` and the length
`len` returned by the `CL_DEVICE_EXTENSIONS` query.  The stream holds the
first `len` bytes; it has at most `len` tokens, so `len + 1` extractions
reach its end. -/
def has_double_extension (buf : List Char) (len : Nat) : Bool :=
  scan_extensions (len + 1) (buf.take len) false

/-- The external query `clGetDeviceInfo(device, CL_DEVICE_EXTENSIONS, bufsize,
buf, &len)` for a device whose extension string is `ext` (a C string, without
its terminator).  When the string and its terminating zero byte fit in
`bufsize` bytes they are copied out and the returned length counts the
terminator; otherwise the query fails with `CL_INVALID_VALUE` and writes
nothing (`none`). -/
def clGetDeviceInfo_EXTENSIONS (bufsize : Nat) (ext : List Char) :
    Option (List Char × Nat) :=
  if ext.length + 1 ≤ bufsize then some (ext ++ [Char.ofNat 0], ext.length + 1) else none

/-- Lines 139 to 154 of `cl_manager::report_system_specs` for a device whose
extension string is `ext`: the query into the 1024-byte `buf`, whose result
code is not checked, then the scan of the first `len` bytes.  `buf0` and
`len0` are the indeterminate initial contents of the locals `buf` and `len`,
which is what the scan reads when the query wrote nothing.  The result is the
flag printed as "yes" or "no". -/
def report_system_specs (ext : List Char) (buf0 : List Char) (len0 : Nat) : Bool :=
  match clGetDeviceInfo_EXTENSIONS 1024 ext with
  | some (buf, len) => has_double_extension buf len
  | none => has_double_extension buf0 len0

/-- Spec wording, "the string split on whitespace": the maximal runs of
non-whitespace characters of the string. -/
def whitespace_tokens (s : List Char) : List (List Char) :=
  (s.splitOnP isspace).filter (fun t => t ≠ [])

/-! ## Basic facts about kernels, queues and the manager -/

theorem getArg_setArg_same (k : cl_kernel) (i : Nat) (a : arg) :
    getArg (setArg k i a) i = some a := by
  induction k with
  | nil => simp [setArg, getArg]
  | cons hd tl ih =>
    obtain ⟨j, b⟩ := hd
    by_cases h1 : i = j
    · simp [setArg, getArg, h1]
    · by_cases h2 : i < j
      · simp [setArg, getArg, h1, h2]
      · simp [setArg, getArg, h1, h2, ih]

theorem getArg_setArg_ne (k : cl_kernel) (i j : Nat) (a : arg) (h : j ≠ i) :
    getArg (setArg k i a) j = getArg k j := by
  induction k with
  | nil => simp [setArg, getArg, h]
  | cons hd tl ih =>
    obtain ⟨l, b⟩ := hd
    by_cases h1 : i = l
    · subst h1; simp [setArg, getArg, h]
    · by_cases h2 : i < l
      · simp [setArg, getArg, h1, h2, h]
      · simp [setArg, getArg, h1, h2, ih]

theorem hessian.setArg_queue (self : hessian) (k : kernel_name) (i : Nat) (a : arg) :
    (self.setArg k i a).queue = self.queue := by
  cases k <;> rfl

theorem hessian.setArg_kpts_buffer_size_ (self : hessian) (k : kernel_name) (i : Nat)
    (a : arg) : (self.setArg k i a).kpts_buffer_size_ = self.kpts_buffer_size_ := by
  cases k <;> rfl

theorem hessian.setArg_kernel (self : hessian) (k k1 : kernel_name) (i : Nat) (a : arg) :
    (self.setArg k i a).kernel k1 =
      if k1 = k then viscl.setArg (self.kernel k) i a else self.kernel k1 := by
  cases k <;> cases k1 <;> simp [hessian.setArg, hessian.kernel]

theorem hessian.enqueue_kernel (self : hessian) (c : command) (k : kernel_name) :
    (self.enqueue c).kernel k = self.kernel k := by
  cases k <;> rfl

theorem hessian.enqueue_queue (self : hessian) (c : command) :
    (self.enqueue c).queue = self.queue ++ [c] := rfl

theorem hessian.enqueue_kpts_buffer_size_ (self : hessian) (c : command) :
    (self.enqueue c).kpts_buffer_size_ = self.kpts_buffer_size_ := rfl

theorem hessian.assign_capacity_kernel (self : hessian) (v : Nat) (k : kernel_name) :
    (self.assign_capacity v).kernel k = self.kernel k := by
  cases k <;> rfl

theorem hessian.assign_capacity_queue (self : hessian) (v : Nat) :
    (self.assign_capacity v).queue = self.queue := rfl

theorem hessian.assign_capacity_kpts_buffer_size_ (self : hessian) (v : Nat) :
    (self.assign_capacity v).kpts_buffer_size_ = v := rfl

theorem int_to_unsigned_lt (x : Int) : int_to_unsigned x < 4294967296 := by
  unfold int_to_unsigned
  omega

theorem max_kpts_lt (ni nj : Nat) : max_kpts ni nj < 4294967296 := by
  unfold max_kpts UNSIGNED_RANGE
  omega

theorem initial_capacity_zero_bytes_iff (self : hessian) (ni nj : Nat)
    (h : self.kpts_buffer_size_ < UNSIGNED_RANGE) :
    self.initial_capacity ni nj * 8 % SIZE_T_RANGE = 0 ↔ self.initial_capacity ni nj = 0 := by
  have hm := max_kpts_lt ni nj
  unfold hessian.initial_capacity SIZE_T_RANGE
  unfold UNSIGNED_RANGE at h
  split <;> omega

theorem detect_kpts_buffer_size_ (self : hessian) (mgr : cl_manager) (smoothed : Image2D)
    (thresh sigma : cl_float) (subpixel : Bool) (dev_count : Int) :
    self.unless_rejected mgr smoothed
      (self.detect mgr smoothed thresh sigma subpixel dev_count) (fun r =>
      r.self.kpts_buffer_size_ =
        min (3 * int_to_unsigned dev_count % UNSIGNED_RANGE / 2)
          (max_kpts smoothed.ni smoothed.nj)) := by
  have hlt := int_to_unsigned_lt dev_count
  unfold hessian.unless_rejected
  by_cases hz : self.initial_capacity smoothed.ni smoothed.nj * 8 % 18446744073709551616 = 0
  · cases subpixel <;>
    simp [new_commands, new_allocs, working_images, hessian.detect, hessian.first_pass,
      hessian.assign_capacity_kpts_buffer_size_, hessian.assign_capacity_queue,
      cl_manager.create_buffer, cl_manager.create_image_fmt, sizeof, SIZE_T_RANGE, hz,
      CL_MEM_READ_WRITE, Nat.shiftRight_eq_div_pow]
  · have hz4 : ¬ self.initial_capacity smoothed.ni smoothed.nj * 4 % 18446744073709551616 = 0 := by
      omega
    by_cases h : self.initial_capacity smoothed.ni smoothed.nj ≤ int_to_unsigned dev_count
    · have hc8 : ¬ int_to_unsigned dev_count * 8 % 18446744073709551616 = 0 := by omega
      have hc4 : ¬ int_to_unsigned dev_count * 4 % 18446744073709551616 = 0 := by omega
      have h2 : ¬ int_to_unsigned dev_count < self.initial_capacity smoothed.ni smoothed.nj := by omega
      cases subpixel <;>
      simp [new_commands, new_allocs, hessian.detect, hessian.overflow_rerun,
        hessian.first_pass, hessian.num_kpts, hessian.enqueueNDRangeKernel,
        hessian.enqueue_queue, hessian.setArg_queue, hessian.enqueue_kernel,
        hessian.setArg_kernel, hessian.setArg_kpts_buffer_size_,
        hessian.enqueue_kpts_buffer_size_, h, h2, hz, hz4, hc8, hc4,
        cl_manager.create_buffer, cl_manager.create_image_fmt, cl_buffer.mem_size, sizeof,
        SIZE_T_RANGE, UNSIGNED_RANGE, extrema_kernel, kpts_elem, count_buffer, working_images,
        command.is_zero_write, command.is_launch, command.erase_args,
        command.capacity_matches, launches_separated,
        getArg_setArg_same, getArg_setArg_ne, hessian.assign_capacity_kernel,
        hessian.assign_capacity_queue, hessian.assign_capacity_kpts_buffer_size_,
        CL_MEM_READ_WRITE, Nat.shiftRight_eq_div_pow]
    · have h2 : int_to_unsigned dev_count < self.initial_capacity smoothed.ni smoothed.nj := by omega
      cases subpixel <;>
      simp [new_commands, new_allocs, hessian.detect, hessian.overflow_rerun,
        hessian.first_pass, hessian.num_kpts, hessian.enqueueNDRangeKernel,
        hessian.enqueue_queue, hessian.setArg_queue, hessian.enqueue_kernel,
        hessian.setArg_kernel, hessian.setArg_kpts_buffer_size_,
        hessian.enqueue_kpts_buffer_size_, h, h2, hz, hz4,
        cl_manager.create_buffer, cl_manager.create_image_fmt, cl_buffer.mem_size, sizeof,
        SIZE_T_RANGE, UNSIGNED_RANGE, extrema_kernel, kpts_elem, count_buffer, working_images,
        command.is_zero_write, command.is_launch, command.erase_args,
        command.capacity_matches, launches_separated,
        getArg_setArg_same, getArg_setArg_ne, hessian.assign_capacity_kernel,
        hessian.assign_capacity_queue, hessian.assign_capacity_kpts_buffer_size_,
        CL_MEM_READ_WRITE, Nat.shiftRight_eq_div_pow]

/-! ## The overflow decision -/

/-- C1: the overflow path of `detect` is taken exactly when the count read back
after the first pass is at least the first-pass capacity.  Each observable
part of the path is equivalent to that comparison: the count buffer is zeroed
a second time, two further buffers sized by the count are allocated, the
extrema kernel's arguments 2, 3 and 4 are rebound to them, and the extrema
kernel is launched a second time; otherwise the call makes five allocations
and submits seven commands.  (A call whose first buffer request has zero
bytes is rejected before any count is read back.) -/
theorem detect_overflow_iff (self : hessian) (mgr : cl_manager) (smoothed : Image2D)
    (thresh sigma : cl_float) (subpixel : Bool) (dev_count : Int) :
    self.unless_rejected mgr smoothed
      (self.detect mgr smoothed thresh sigma subpixel dev_count) (fun r =>
    (self.initial_capacity smoothed.ni smoothed.nj ≤ int_to_unsigned dev_count ↔
      (new_commands self r.self).countP command.is_zero_write = 2) ∧
    (self.initial_capacity smoothed.ni smoothed.nj ≤ int_to_unsigned dev_count ↔
      (new_allocs mgr r.mgr).drop 5 =
        [alloc.Buffer CL_MEM_READ_WRITE
            (int_to_unsigned dev_count * 8 % SIZE_T_RANGE) (kpts_elem subpixel),
         alloc.Buffer CL_MEM_READ_WRITE
            (int_to_unsigned dev_count * 4 % SIZE_T_RANGE) .cl_float]) ∧
    (self.initial_capacity smoothed.ni smoothed.nj ≤ int_to_unsigned dev_count ↔
      (getArg (r.self.kernel (extrema_kernel subpixel)) 2 =
        some (.buffer ⟨mgr.context.length + 5, int_to_unsigned dev_count * 8 % SIZE_T_RANGE,
          kpts_elem subpixel, int_to_unsigned dev_count⟩) ∧
       getArg (r.self.kernel (extrema_kernel subpixel)) 3 =
        some (.buffer ⟨mgr.context.length + 6, int_to_unsigned dev_count * 4 % SIZE_T_RANGE,
          .cl_float, int_to_unsigned dev_count⟩) ∧
       getArg (r.self.kernel (extrema_kernel subpixel)) 4 =
        some (.uint (int_to_unsigned dev_count)))) ∧
    (self.initial_capacity smoothed.ni smoothed.nj ≤ int_to_unsigned dev_count ↔
      (new_commands self r.self).countP (command.is_launch (extrema_kernel subpixel)) = 2) ∧
    (int_to_unsigned dev_count < self.initial_capacity smoothed.ni smoothed.nj ↔
      (new_allocs mgr r.mgr).length = 5 ∧ (new_commands self r.self).length = 7)) := by
  have hlt := int_to_unsigned_lt dev_count
  unfold hessian.unless_rejected
  by_cases hz : self.initial_capacity smoothed.ni smoothed.nj * 8 % 18446744073709551616 = 0
  · cases subpixel <;>
    simp [new_commands, new_allocs, working_images, hessian.detect, hessian.first_pass,
      hessian.assign_capacity_kpts_buffer_size_, hessian.assign_capacity_queue,
      cl_manager.create_buffer, cl_manager.create_image_fmt, sizeof, SIZE_T_RANGE, hz,
      CL_MEM_READ_WRITE, Nat.shiftRight_eq_div_pow]
  · have hz4 : ¬ self.initial_capacity smoothed.ni smoothed.nj * 4 % 18446744073709551616 = 0 := by
      omega
    by_cases h : self.initial_capacity smoothed.ni smoothed.nj ≤ int_to_unsigned dev_count
    · have hc8 : ¬ int_to_unsigned dev_count * 8 % 18446744073709551616 = 0 := by omega
      have hc4 : ¬ int_to_unsigned dev_count * 4 % 18446744073709551616 = 0 := by omega
      have h2 : ¬ int_to_unsigned dev_count < self.initial_capacity smoothed.ni smoothed.nj := by omega
      cases subpixel <;>
      simp [new_commands, new_allocs, hessian.detect, hessian.overflow_rerun,
        hessian.first_pass, hessian.num_kpts, hessian.enqueueNDRangeKernel,
        hessian.enqueue_queue, hessian.setArg_queue, hessian.enqueue_kernel,
        hessian.setArg_kernel, hessian.setArg_kpts_buffer_size_,
        hessian.enqueue_kpts_buffer_size_, h, h2, hz, hz4, hc8, hc4,
        cl_manager.create_buffer, cl_manager.create_image_fmt, cl_buffer.mem_size, sizeof,
        SIZE_T_RANGE, UNSIGNED_RANGE, extrema_kernel, kpts_elem, count_buffer, working_images,
        command.is_zero_write, command.is_launch, command.erase_args,
        command.capacity_matches, launches_separated,
        getArg_setArg_same, getArg_setArg_ne, hessian.assign_capacity_kernel,
        hessian.assign_capacity_queue, hessian.assign_capacity_kpts_buffer_size_,
        CL_MEM_READ_WRITE, Nat.shiftRight_eq_div_pow]
    · have h2 : int_to_unsigned dev_count < self.initial_capacity smoothed.ni smoothed.nj := by omega
      cases subpixel <;>
      simp [new_commands, new_allocs, hessian.detect, hessian.overflow_rerun,
        hessian.first_pass, hessian.num_kpts, hessian.enqueueNDRangeKernel,
        hessian.enqueue_queue, hessian.setArg_queue, hessian.enqueue_kernel,
        hessian.setArg_kernel, hessian.setArg_kpts_buffer_size_,
        hessian.enqueue_kpts_buffer_size_, h, h2, hz, hz4,
        cl_manager.create_buffer, cl_manager.create_image_fmt, cl_buffer.mem_size, sizeof,
        SIZE_T_RANGE, UNSIGNED_RANGE, extrema_kernel, kpts_elem, count_buffer, working_images,
        command.is_zero_write, command.is_launch, command.erase_args,
        command.capacity_matches, launches_separated,
        getArg_setArg_same, getArg_setArg_ne, hessian.assign_capacity_kernel,
        hessian.assign_capacity_queue, hessian.assign_capacity_kpts_buffer_size_,
        CL_MEM_READ_WRITE, Nat.shiftRight_eq_div_pow]

/-! ## The remembered capacity -/

/-- C2, counterexample: the remembered capacity is computed in 32-bit unsigned
arithmetic.  On a 131072 x 65536 image with a count of 1431655766 the product
`3 * num_detected` wraps and the call returns remembering 1, not 2147483648;
on a 131072 x 131073 image `max_kpts` is narrowed to 32768 and a count of
40000 leaves the capacity 32768, not 60000. -/
theorem detect_capacity_wraps :
    (∃ r, hessian.new.detect (sample_mgr 131072 65536) (sample_image 131072 65536)
        (.val 0) (.val 0) false 1431655766 = .ok r ∧
      int_to_unsigned 1431655766 = 1431655766 ∧
      r.self.kpts_buffer_size_ = 1 ∧
      r.self.kpts_buffer_size_ ≠ min (3 * 1431655766 / 2) (131072 * 65536 / 4)) ∧
    (∃ r, hessian.new.detect (sample_mgr 131072 131073) (sample_image 131072 131073)
        (.val 0) (.val 0) false 40000 = .ok r ∧
      int_to_unsigned 40000 = 40000 ∧
      r.self.kpts_buffer_size_ = 32768 ∧
      r.self.kpts_buffer_size_ ≠ min (3 * 40000 / 2) (131072 * 131073 / 4)) := by
  refine ⟨⟨_, rfl, ?_⟩, ⟨_, rfl, ?_⟩⟩ <;> decide

/-- C2, amended: when `3 * C` fits in 32 bits and the image has fewer than
2^34 pixels, the capacity remembered after a call that read back the count `C`
on a `W x H` image is `min (3 * C / 2) (W * H / 4)`. -/
theorem detect_capacity_update (self : hessian) (mgr : cl_manager) (smoothed : Image2D)
    (thresh sigma : cl_float) (subpixel : Bool) (dev_count : Int)
    (hC : 3 * int_to_unsigned dev_count < 2 ^ 32)
    (hWH : smoothed.ni * smoothed.nj < 2 ^ 34) :
    self.unless_rejected mgr smoothed
      (self.detect mgr smoothed thresh sigma subpixel dev_count) (fun r =>
      r.self.kpts_buffer_size_ =
        min (3 * int_to_unsigned dev_count / 2) (smoothed.ni * smoothed.nj / 4)) := by
  have h1 : 3 * int_to_unsigned dev_count % UNSIGNED_RANGE = 3 * int_to_unsigned dev_count :=
    Nat.mod_eq_of_lt (by simpa [UNSIGNED_RANGE] using hC)
  have h2 : max_kpts smoothed.ni smoothed.nj = smoothed.ni * smoothed.nj / 4 := by
    unfold max_kpts SIZE_T_RANGE UNSIGNED_RANGE
    rw [Nat.mod_eq_of_lt (by omega), Nat.mod_eq_of_lt (by omega)]
  have h := detect_kpts_buffer_size_ self mgr smoothed thresh sigma subpixel dev_count
  rw [h1, h2] at h
  exact h

/-- Witness for the amended C2 statement: a fresh task on a 64 x 64 image with
a count of 7 returns remembering `min (3 * 7 / 2) (64 * 64 / 4) = 10`. -/
theorem detect_capacity_update_witness :
    3 * int_to_unsigned 7 < 2 ^ 32 ∧
    (sample_image 64 64).ni * (sample_image 64 64).nj < 2 ^ 34 ∧
    hessian.new.unless_rejected (sample_mgr 64 64) (sample_image 64 64)
      (hessian.new.detect (sample_mgr 64 64) (sample_image 64 64) (.val 0) (.val 0) false 7)
      (fun r => r.self.kpts_buffer_size_ =
        min (3 * int_to_unsigned 7 / 2)
          ((sample_image 64 64).ni * (sample_image 64 64).nj / 4)) ∧
    (∃ r, hessian.new.detect (sample_mgr 64 64) (sample_image 64 64)
        (.val 0) (.val 0) false 7 = .ok r ∧ r.self.kpts_buffer_size_ = 10) :=
  ⟨by decide, by decide,
   detect_capacity_update hessian.new (sample_mgr 64 64) (sample_image 64 64)
     (.val 0) (.val 0) false 7 (by decide) (by decide),
   ⟨_, rfl, by decide⟩⟩

/-! ## Lengths of the returned buffers -/

/-- C3, counterexample: a fresh task on a 64 x 64 image starts with capacity
10; with a count of 1 the overflow path is not taken and the call returns
coordinate and score buffers of 10 elements, nine more than the count. -/
theorem detect_returns_unused_slots :
    ∃ r, hessian.new.detect (sample_mgr 64 64) (sample_image 64 64)
        (.val 0) (.val 0) false 1 = .ok r ∧
      r.kpts.len = 10 ∧ r.kvals.len = 10 ∧ int_to_unsigned 1 = 1 ∧
      r.kpts.len ≠ int_to_unsigned 1 := by
  refine ⟨_, rfl, ?_⟩
  decide

/-- C3, amended: on return the coordinate buffer and the score buffer have
the same element length; that length is the detected count exactly when the
overflow path ran (two further allocations were made), and is the first-pass
capacity, larger than the count, otherwise. -/
theorem detect_buffer_lengths (self : hessian) (mgr : cl_manager) (smoothed : Image2D)
    (thresh sigma : cl_float) (subpixel : Bool) (dev_count : Int) :
    self.unless_rejected mgr smoothed
      (self.detect mgr smoothed thresh sigma subpixel dev_count) (fun r =>
    r.kpts.len = r.kvals.len ∧
    (r.kpts.len = int_to_unsigned dev_count ↔ (new_allocs mgr r.mgr).length = 7) ∧
    (r.kpts.len = int_to_unsigned dev_count ↔
      self.initial_capacity smoothed.ni smoothed.nj ≤ int_to_unsigned dev_count) ∧
    r.kpts.len =
      max (self.initial_capacity smoothed.ni smoothed.nj) (int_to_unsigned dev_count)) := by
  have hlt := int_to_unsigned_lt dev_count
  unfold hessian.unless_rejected
  by_cases hz : self.initial_capacity smoothed.ni smoothed.nj * 8 % 18446744073709551616 = 0
  · cases subpixel <;>
    simp [new_commands, new_allocs, working_images, hessian.detect, hessian.first_pass,
      hessian.assign_capacity_kpts_buffer_size_, hessian.assign_capacity_queue,
      cl_manager.create_buffer, cl_manager.create_image_fmt, sizeof, SIZE_T_RANGE, hz,
      CL_MEM_READ_WRITE, Nat.shiftRight_eq_div_pow]
  · have hz4 : ¬ self.initial_capacity smoothed.ni smoothed.nj * 4 % 18446744073709551616 = 0 := by
      omega
    by_cases h : self.initial_capacity smoothed.ni smoothed.nj ≤ int_to_unsigned dev_count
    · have hc8 : ¬ int_to_unsigned dev_count * 8 % 18446744073709551616 = 0 := by omega
      have hc4 : ¬ int_to_unsigned dev_count * 4 % 18446744073709551616 = 0 := by omega
      have h2 : ¬ int_to_unsigned dev_count < self.initial_capacity smoothed.ni smoothed.nj := by omega
      cases subpixel <;>
      simp [new_commands, new_allocs, hessian.detect, hessian.overflow_rerun,
        hessian.first_pass, hessian.num_kpts, hessian.enqueueNDRangeKernel,
        hessian.enqueue_queue, hessian.setArg_queue, hessian.enqueue_kernel,
        hessian.setArg_kernel, hessian.setArg_kpts_buffer_size_,
        hessian.enqueue_kpts_buffer_size_, h, h2, hz, hz4, hc8, hc4,
        cl_manager.create_buffer, cl_manager.create_image_fmt, cl_buffer.mem_size, sizeof,
        SIZE_T_RANGE, UNSIGNED_RANGE, extrema_kernel, kpts_elem, count_buffer, working_images,
        command.is_zero_write, command.is_launch, command.erase_args,
        command.capacity_matches, launches_separated,
        getArg_setArg_same, getArg_setArg_ne, hessian.assign_capacity_kernel,
        hessian.assign_capacity_queue, hessian.assign_capacity_kpts_buffer_size_,
        CL_MEM_READ_WRITE, Nat.shiftRight_eq_div_pow]
    · have h2 : int_to_unsigned dev_count < self.initial_capacity smoothed.ni smoothed.nj := by omega
      cases subpixel <;>
      simp [new_commands, new_allocs, hessian.detect, hessian.overflow_rerun,
        hessian.first_pass, hessian.num_kpts, hessian.enqueueNDRangeKernel,
        hessian.enqueue_queue, hessian.setArg_queue, hessian.enqueue_kernel,
        hessian.setArg_kernel, hessian.setArg_kpts_buffer_size_,
        hessian.enqueue_kpts_buffer_size_, h, h2, hz, hz4,
        cl_manager.create_buffer, cl_manager.create_image_fmt, cl_buffer.mem_size, sizeof,
        SIZE_T_RANGE, UNSIGNED_RANGE, extrema_kernel, kpts_elem, count_buffer, working_images,
        command.is_zero_write, command.is_launch, command.erase_args,
        command.capacity_matches, launches_separated,
        getArg_setArg_same, getArg_setArg_ne, hessian.assign_capacity_kernel,
        hessian.assign_capacity_queue, hessian.assign_capacity_kpts_buffer_size_,
        CL_MEM_READ_WRITE, Nat.shiftRight_eq_div_pow] <;>
      omega

/-- C4: the coordinate buffer and the score buffer held on return have at
least as many elements as the count read back after the first pass: the
first-pass capacity when the count is below it, the count itself otherwise. -/
theorem detect_no_truncation (self : hessian) (mgr : cl_manager) (smoothed : Image2D)
    (thresh sigma : cl_float) (subpixel : Bool) (dev_count : Int) :
    self.unless_rejected mgr smoothed
      (self.detect mgr smoothed thresh sigma subpixel dev_count) (fun r =>
    int_to_unsigned dev_count ≤ r.kpts.len ∧
    int_to_unsigned dev_count ≤ r.kvals.len ∧
    r.kpts.len =
      (if int_to_unsigned dev_count < self.initial_capacity smoothed.ni smoothed.nj then
        self.initial_capacity smoothed.ni smoothed.nj
       else int_to_unsigned dev_count) ∧
    r.kvals.len =
      (if int_to_unsigned dev_count < self.initial_capacity smoothed.ni smoothed.nj then
        self.initial_capacity smoothed.ni smoothed.nj
       else int_to_unsigned dev_count)) := by
  have hlt := int_to_unsigned_lt dev_count
  unfold hessian.unless_rejected
  by_cases hz : self.initial_capacity smoothed.ni smoothed.nj * 8 % 18446744073709551616 = 0
  · cases subpixel <;>
    simp [new_commands, new_allocs, working_images, hessian.detect, hessian.first_pass,
      hessian.assign_capacity_kpts_buffer_size_, hessian.assign_capacity_queue,
      cl_manager.create_buffer, cl_manager.create_image_fmt, sizeof, SIZE_T_RANGE, hz,
      CL_MEM_READ_WRITE, Nat.shiftRight_eq_div_pow]
  · have hz4 : ¬ self.initial_capacity smoothed.ni smoothed.nj * 4 % 18446744073709551616 = 0 := by
      omega
    by_cases h : self.initial_capacity smoothed.ni smoothed.nj ≤ int_to_unsigned dev_count
    · have hc8 : ¬ int_to_unsigned dev_count * 8 % 18446744073709551616 = 0 := by omega
      have hc4 : ¬ int_to_unsigned dev_count * 4 % 18446744073709551616 = 0 := by omega
      have h2 : ¬ int_to_unsigned dev_count < self.initial_capacity smoothed.ni smoothed.nj := by omega
      cases subpixel <;>
      simp [new_commands, new_allocs, hessian.detect, hessian.overflow_rerun,
        hessian.first_pass, hessian.num_kpts, hessian.enqueueNDRangeKernel,
        hessian.enqueue_queue, hessian.setArg_queue, hessian.enqueue_kernel,
        hessian.setArg_kernel, hessian.setArg_kpts_buffer_size_,
        hessian.enqueue_kpts_buffer_size_, h, h2, hz, hz4, hc8, hc4,
        cl_manager.create_buffer, cl_manager.create_image_fmt, cl_buffer.mem_size, sizeof,
        SIZE_T_RANGE, UNSIGNED_RANGE, extrema_kernel, kpts_elem, count_buffer, working_images,
        command.is_zero_write, command.is_launch, command.erase_args,
        command.capacity_matches, launches_separated,
        getArg_setArg_same, getArg_setArg_ne, hessian.assign_capacity_kernel,
        hessian.assign_capacity_queue, hessian.assign_capacity_kpts_buffer_size_,
        CL_MEM_READ_WRITE, Nat.shiftRight_eq_div_pow]
    · have h2 : int_to_unsigned dev_count < self.initial_capacity smoothed.ni smoothed.nj := by omega
      cases subpixel <;>
      simp [new_commands, new_allocs, hessian.detect, hessian.overflow_rerun,
        hessian.first_pass, hessian.num_kpts, hessian.enqueueNDRangeKernel,
        hessian.enqueue_queue, hessian.setArg_queue, hessian.enqueue_kernel,
        hessian.setArg_kernel, hessian.setArg_kpts_buffer_size_,
        hessian.enqueue_kpts_buffer_size_, h, h2, hz, hz4,
        cl_manager.create_buffer, cl_manager.create_image_fmt, cl_buffer.mem_size, sizeof,
        SIZE_T_RANGE, UNSIGNED_RANGE, extrema_kernel, kpts_elem, count_buffer, working_images,
        command.is_zero_write, command.is_launch, command.erase_args,
        command.capacity_matches, launches_separated,
        getArg_setArg_same, getArg_setArg_ne, hessian.assign_capacity_kernel,
        hessian.assign_capacity_queue, hessian.assign_capacity_kpts_buffer_size_,
        CL_MEM_READ_WRITE, Nat.shiftRight_eq_div_pow] <;>
      omega

/-! ## A count of zero -/

/-- C5: for every image and every remembered capacity, a call of `detect`
whose read-back count is 0 does not take the overflow path.  A call that
returns made exactly the five first-pass allocations, zeroed the count buffer
once, launched the extrema kernel once, submitted no `finish` and returns the
first-pass buffers.  The only other calls are those whose first buffer request
has zero bytes (first-pass capacity 0): they are rejected at that request,
before any command is submitted or any count read back, so they do not take
the overflow path either. -/
theorem detect_zero_count_no_overflow (self : hessian) (mgr : cl_manager) (smoothed : Image2D)
    (thresh sigma : cl_float) (subpixel : Bool) (dev_count : Int)
    (hzero : int_to_unsigned dev_count = 0) :
    self.unless_rejected mgr smoothed
      (self.detect mgr smoothed thresh sigma subpixel dev_count) (fun r =>
    (new_allocs mgr r.mgr).length = 5 ∧
    (new_commands self r.self).length = 7 ∧
    (new_commands self r.self).countP command.is_zero_write = 1 ∧
    (new_commands self r.self).countP (command.is_launch (extrema_kernel subpixel)) = 1 ∧
    command.finish ∉ new_commands self r.self ∧
    r.kpts.handle = mgr.context.length + 2 ∧
    r.kvals.handle = mgr.context.length + 3) := by
  have hlt := int_to_unsigned_lt dev_count
  unfold hessian.unless_rejected
  by_cases hz : self.initial_capacity smoothed.ni smoothed.nj * 8 % 18446744073709551616 = 0
  · cases subpixel <;>
    simp [new_commands, new_allocs, working_images, hessian.detect, hessian.first_pass,
      hessian.assign_capacity_kpts_buffer_size_, hessian.assign_capacity_queue,
      cl_manager.create_buffer, cl_manager.create_image_fmt, sizeof, SIZE_T_RANGE, hz,
      CL_MEM_READ_WRITE, Nat.shiftRight_eq_div_pow]
  · have hz4 : ¬ self.initial_capacity smoothed.ni smoothed.nj * 4 % 18446744073709551616 = 0 := by
      omega
    have h : ¬ self.initial_capacity smoothed.ni smoothed.nj ≤ int_to_unsigned dev_count := by omega
    have h2 : int_to_unsigned dev_count < self.initial_capacity smoothed.ni smoothed.nj := by omega
    cases subpixel <;>
    simp [new_commands, new_allocs, hessian.detect, hessian.overflow_rerun,
      hessian.first_pass, hessian.num_kpts, hessian.enqueueNDRangeKernel,
      hessian.enqueue_queue, hessian.setArg_queue, hessian.enqueue_kernel,
      hessian.setArg_kernel, hessian.setArg_kpts_buffer_size_,
      hessian.enqueue_kpts_buffer_size_, h, h2, hz, hz4,
      cl_manager.create_buffer, cl_manager.create_image_fmt, cl_buffer.mem_size, sizeof,
      SIZE_T_RANGE, UNSIGNED_RANGE, extrema_kernel, kpts_elem, count_buffer, working_images,
      command.is_zero_write, command.is_launch, command.erase_args,
      command.capacity_matches, launches_separated,
      getArg_setArg_same, getArg_setArg_ne, hessian.assign_capacity_kernel,
      hessian.assign_capacity_queue, hessian.assign_capacity_kpts_buffer_size_,
      CL_MEM_READ_WRITE, Nat.shiftRight_eq_div_pow]

/-- Witness for C5: a fresh task on a 64 x 64 image (first-pass capacity 10)
with a count of 0 returns after five allocations; a fresh task on a 16 x 16
image (first-pass capacity 0) is rejected at its first buffer request. -/
theorem detect_zero_count_no_overflow_witness :
    int_to_unsigned 0 = 0 ∧
    hessian.new.unless_rejected (sample_mgr 64 64) (sample_image 64 64)
      (hessian.new.detect (sample_mgr 64 64) (sample_image 64 64) (.val 0) (.val 0) true 0)
      (fun r =>
        (new_allocs (sample_mgr 64 64) r.mgr).length = 5 ∧
        (new_commands hessian.new r.self).length = 7 ∧
        (new_commands hessian.new r.self).countP command.is_zero_write = 1 ∧
        (new_commands hessian.new r.self).countP
          (command.is_launch (extrema_kernel true)) = 1 ∧
        command.finish ∉ new_commands hessian.new r.self ∧
        r.kpts.handle = (sample_mgr 64 64).context.length + 2 ∧
        r.kvals.handle = (sample_mgr 64 64).context.length + 3) ∧
    (∃ r, hessian.new.detect (sample_mgr 64 64) (sample_image 64 64)
        (.val 0) (.val 0) true 0 = .ok r ∧ (new_allocs (sample_mgr 64 64) r.mgr).length = 5) ∧
    (∃ a, hessian.new.detect (sample_mgr 16 16) (sample_image 16 16)
        (.val 0) (.val 0) true 0 = .error a ∧ a.err = .CL_INVALID_BUFFER_SIZE ∧
        new_commands hessian.new a.self = []) :=
  ⟨by decide,
   detect_zero_count_no_overflow hessian.new (sample_mgr 64 64) (sample_image 64 64)
     (.val 0) (.val 0) true 0 (by decide),
   ⟨_, rfl, by decide⟩, ⟨_, rfl, by decide⟩⟩

/-! ## First-pass allocations -/

/-- C6, counterexample: `max_kpts` is an `unsigned`.  On a 131072 x 131073
image `W * H / 4 = 2^32 + 32768` is narrowed to 32768, so a fresh task takes
the first-pass capacity 327 and allocates coordinate and score buffers of 327
elements, while `(W * H / 4) / 100 = 42950000`. -/
theorem detect_initial_capacity_narrowed :
    hessian.new.kpts_buffer_size_ = 0 ∧
    131072 * 131073 / 4 / 100 = 42950000 ∧
    hessian.new.initial_capacity 131072 131073 = 327 ∧
    (∃ r, hessian.new.detect (sample_mgr 131072 131073) (sample_image 131072 131073)
        (.val 0) (.val 0) false 0 = .ok r ∧
      r.kpts.len = 327 ∧ r.kvals.len = 327 ∧
      new_allocs (sample_mgr 131072 131073) r.mgr =
        [alloc.Image2D CL_MEM_READ_WRITE ⟨.CL_INTENSITY, .CL_FLOAT⟩ 131072 131073 0 none,
         alloc.Image2D CL_MEM_READ_WRITE ⟨.CL_R, .CL_SIGNED_INT32⟩ 65536 65536 0 none,
         alloc.Buffer CL_MEM_READ_WRITE 2616 .cl_int2,
         alloc.Buffer CL_MEM_READ_WRITE 1308 .cl_float,
         alloc.Buffer CL_MEM_READ_WRITE 4 .int]) := by
  refine ⟨by decide, by decide, by decide, ⟨_, rfl, ?_⟩⟩
  decide

/-- C6, amended: the first-pass capacity is the remembered capacity when that
is not 0; when it is 0 the capacity is `max_kpts / 100`, where `max_kpts` is
`W * H / 4` computed in `size_t` and narrowed to 32 bits, which is
`(W * H / 4) / 100` for an image of fewer than 2^34 pixels.  For every image,
unless the first buffer request has zero bytes and is rejected with nothing
submitted, the first five allocations of the call are the response image, the
half-resolution keypoint map, a coordinate buffer of that many elements (pair
of floats when `subpixel`, pair of ints otherwise), a score buffer of that
many floats and a count buffer of one `int`; the wrappers remember those
lengths; and the first command of the call, ahead of every launch, is the
blocking write of 0 to the count buffer. -/
theorem detect_first_pass_allocation (self : hessian) (mgr : cl_manager) (smoothed : Image2D)
    (thresh sigma : cl_float) (subpixel : Bool) (dev_count : Int) :
    self.initial_capacity smoothed.ni smoothed.nj =
      (if self.kpts_buffer_size_ = 0 then
        (if smoothed.ni * smoothed.nj < 2 ^ 34 then smoothed.ni * smoothed.nj / 4 / 100
         else smoothed.ni * smoothed.nj % 2 ^ 64 / 4 % 2 ^ 32 / 100)
       else self.kpts_buffer_size_) ∧
    self.unless_rejected mgr smoothed
      (self.first_pass mgr smoothed thresh sigma subpixel dev_count) (fun p =>
        p.1.kpts =
          ⟨mgr.context.length + 2,
           self.initial_capacity smoothed.ni smoothed.nj * sizeof (kpts_elem subpixel)
             % SIZE_T_RANGE,
           kpts_elem subpixel, self.initial_capacity smoothed.ni smoothed.nj⟩ ∧
        p.1.kvals =
          ⟨mgr.context.length + 3,
           self.initial_capacity smoothed.ni smoothed.nj * sizeof .cl_float % SIZE_T_RANGE,
           .cl_float, self.initial_capacity smoothed.ni smoothed.nj⟩ ∧
        p.1.numkpts = count_buffer mgr ∧
        p.2 = int_to_unsigned dev_count) ∧
    self.unless_rejected mgr smoothed
      (self.detect mgr smoothed thresh sigma subpixel dev_count) (fun r =>
    (new_allocs mgr r.mgr).take 5 =
      working_images smoothed ++
      [alloc.Buffer CL_MEM_READ_WRITE
         (self.initial_capacity smoothed.ni smoothed.nj * sizeof (kpts_elem subpixel)
           % SIZE_T_RANGE) (kpts_elem subpixel),
       alloc.Buffer CL_MEM_READ_WRITE
         (self.initial_capacity smoothed.ni smoothed.nj * sizeof .cl_float % SIZE_T_RANGE)
         .cl_float,
       alloc.Buffer CL_MEM_READ_WRITE (1 * sizeof .int) .int] ∧
    r.numkpts = count_buffer mgr ∧
    (new_commands self r.self).head? =
      some (.enqueueWriteBuffer (count_buffer mgr) true 0 4 [0]) ∧
    ((new_commands self r.self).take 1).all (fun c => c.is_zero_write) = true) := by
  have hcap : self.initial_capacity smoothed.ni smoothed.nj =
      (if self.kpts_buffer_size_ = 0 then
        (if smoothed.ni * smoothed.nj < 2 ^ 34 then smoothed.ni * smoothed.nj / 4 / 100
         else smoothed.ni * smoothed.nj % 2 ^ 64 / 4 % 2 ^ 32 / 100)
       else self.kpts_buffer_size_) := by
    unfold hessian.initial_capacity max_kpts SIZE_T_RANGE UNSIGNED_RANGE
    by_cases h0 : self.kpts_buffer_size_ = 0
    · have h1 : self.kpts_buffer_size_ < 1 := by omega
      rw [if_pos h1, if_pos h0]
      split
      · rw [Nat.mod_eq_of_lt (by omega), Nat.mod_eq_of_lt (by omega)]
      · rfl
    · have h1 : ¬ self.kpts_buffer_size_ < 1 := by omega
      rw [if_neg h1, if_neg h0]
  refine ⟨hcap, ?_, ?_⟩
  · clear hcap
    have hlt := int_to_unsigned_lt dev_count
    unfold hessian.unless_rejected
    by_cases hz : self.initial_capacity smoothed.ni smoothed.nj * 8 % 18446744073709551616 = 0
    · cases subpixel <;>
      simp [new_commands, new_allocs, working_images, hessian.detect, hessian.first_pass,
        hessian.assign_capacity_kpts_buffer_size_, hessian.assign_capacity_queue,
        cl_manager.create_buffer, cl_manager.create_image_fmt, sizeof, SIZE_T_RANGE, hz,
        CL_MEM_READ_WRITE, Nat.shiftRight_eq_div_pow]
    · have hz4 : ¬ self.initial_capacity smoothed.ni smoothed.nj * 4 % 18446744073709551616 = 0 := by
        omega
      by_cases h : self.initial_capacity smoothed.ni smoothed.nj ≤ int_to_unsigned dev_count
      · have hc8 : ¬ int_to_unsigned dev_count * 8 % 18446744073709551616 = 0 := by omega
        have hc4 : ¬ int_to_unsigned dev_count * 4 % 18446744073709551616 = 0 := by omega
        have h2 : ¬ int_to_unsigned dev_count < self.initial_capacity smoothed.ni smoothed.nj := by omega
        cases subpixel <;>
        simp [new_commands, new_allocs, hessian.detect, hessian.overflow_rerun,
          hessian.first_pass, hessian.num_kpts, hessian.enqueueNDRangeKernel,
          hessian.enqueue_queue, hessian.setArg_queue, hessian.enqueue_kernel,
          hessian.setArg_kernel, hessian.setArg_kpts_buffer_size_,
          hessian.enqueue_kpts_buffer_size_, h, h2, hz, hz4, hc8, hc4,
          cl_manager.create_buffer, cl_manager.create_image_fmt, cl_buffer.mem_size, sizeof,
          SIZE_T_RANGE, UNSIGNED_RANGE, extrema_kernel, kpts_elem, count_buffer, working_images,
          command.is_zero_write, command.is_launch, command.erase_args,
          command.capacity_matches, launches_separated,
          getArg_setArg_same, getArg_setArg_ne, hessian.assign_capacity_kernel,
          hessian.assign_capacity_queue, hessian.assign_capacity_kpts_buffer_size_,
          CL_MEM_READ_WRITE, Nat.shiftRight_eq_div_pow]
      · have h2 : int_to_unsigned dev_count < self.initial_capacity smoothed.ni smoothed.nj := by omega
        cases subpixel <;>
        simp [new_commands, new_allocs, hessian.detect, hessian.overflow_rerun,
          hessian.first_pass, hessian.num_kpts, hessian.enqueueNDRangeKernel,
          hessian.enqueue_queue, hessian.setArg_queue, hessian.enqueue_kernel,
          hessian.setArg_kernel, hessian.setArg_kpts_buffer_size_,
          hessian.enqueue_kpts_buffer_size_, h, h2, hz, hz4,
          cl_manager.create_buffer, cl_manager.create_image_fmt, cl_buffer.mem_size, sizeof,
          SIZE_T_RANGE, UNSIGNED_RANGE, extrema_kernel, kpts_elem, count_buffer, working_images,
          command.is_zero_write, command.is_launch, command.erase_args,
          command.capacity_matches, launches_separated,
          getArg_setArg_same, getArg_setArg_ne, hessian.assign_capacity_kernel,
          hessian.assign_capacity_queue, hessian.assign_capacity_kpts_buffer_size_,
          CL_MEM_READ_WRITE, Nat.shiftRight_eq_div_pow]
  · clear hcap
    have hlt := int_to_unsigned_lt dev_count
    unfold hessian.unless_rejected
    by_cases hz : self.initial_capacity smoothed.ni smoothed.nj * 8 % 18446744073709551616 = 0
    · cases subpixel <;>
      simp [new_commands, new_allocs, working_images, hessian.detect, hessian.first_pass,
        hessian.assign_capacity_kpts_buffer_size_, hessian.assign_capacity_queue,
        cl_manager.create_buffer, cl_manager.create_image_fmt, sizeof, SIZE_T_RANGE, hz,
        CL_MEM_READ_WRITE, Nat.shiftRight_eq_div_pow]
    · have hz4 : ¬ self.initial_capacity smoothed.ni smoothed.nj * 4 % 18446744073709551616 = 0 := by
        omega
      by_cases h : self.initial_capacity smoothed.ni smoothed.nj ≤ int_to_unsigned dev_count
      · have hc8 : ¬ int_to_unsigned dev_count * 8 % 18446744073709551616 = 0 := by omega
        have hc4 : ¬ int_to_unsigned dev_count * 4 % 18446744073709551616 = 0 := by omega
        have h2 : ¬ int_to_unsigned dev_count < self.initial_capacity smoothed.ni smoothed.nj := by omega
        cases subpixel <;>
        simp [new_commands, new_allocs, hessian.detect, hessian.overflow_rerun,
          hessian.first_pass, hessian.num_kpts, hessian.enqueueNDRangeKernel,
          hessian.enqueue_queue, hessian.setArg_queue, hessian.enqueue_kernel,
          hessian.setArg_kernel, hessian.setArg_kpts_buffer_size_,
          hessian.enqueue_kpts_buffer_size_, h, h2, hz, hz4, hc8, hc4,
          cl_manager.create_buffer, cl_manager.create_image_fmt, cl_buffer.mem_size, sizeof,
          SIZE_T_RANGE, UNSIGNED_RANGE, extrema_kernel, kpts_elem, count_buffer, working_images,
          command.is_zero_write, command.is_launch, command.erase_args,
          command.capacity_matches, launches_separated,
          getArg_setArg_same, getArg_setArg_ne, hessian.assign_capacity_kernel,
          hessian.assign_capacity_queue, hessian.assign_capacity_kpts_buffer_size_,
          CL_MEM_READ_WRITE, Nat.shiftRight_eq_div_pow]
      · have h2 : int_to_unsigned dev_count < self.initial_capacity smoothed.ni smoothed.nj := by omega
        cases subpixel <;>
        simp [new_commands, new_allocs, hessian.detect, hessian.overflow_rerun,
          hessian.first_pass, hessian.num_kpts, hessian.enqueueNDRangeKernel,
          hessian.enqueue_queue, hessian.setArg_queue, hessian.enqueue_kernel,
          hessian.setArg_kernel, hessian.setArg_kpts_buffer_size_,
          hessian.enqueue_kpts_buffer_size_, h, h2, hz, hz4,
          cl_manager.create_buffer, cl_manager.create_image_fmt, cl_buffer.mem_size, sizeof,
          SIZE_T_RANGE, UNSIGNED_RANGE, extrema_kernel, kpts_elem, count_buffer, working_images,
          command.is_zero_write, command.is_launch, command.erase_args,
          command.capacity_matches, launches_separated,
          getArg_setArg_same, getArg_setArg_ne, hessian.assign_capacity_kernel,
          hessian.assign_capacity_queue, hessian.assign_capacity_kpts_buffer_size_,
          CL_MEM_READ_WRITE, Nat.shiftRight_eq_div_pow]

/-! ## Command order -/

/-- C8: the commands one call of `detect` appends to the task's queue are, in
order: the blocking zero-write of the count buffer; the response kernel over
`W x H`; the map-init kernel over `(W/2) x (H/2)`; a barrier; the extrema
kernel over `W x H`; a barrier; the blocking read of the count buffer; and,
exactly when the count is at least the first-pass capacity, the blocking
zero-write again, map-init over the half range, a barrier, the extrema kernel
over the full range and `finish`.  Earlier commands of the queue are kept, the
response kernel is launched once, and between two extrema launches there is a
map-init launch followed by a barrier.  (A call whose first buffer request has
zero bytes is rejected before it submits any command.) -/
theorem detect_command_sequence (self : hessian) (mgr : cl_manager) (smoothed : Image2D)
    (thresh sigma : cl_float) (subpixel : Bool) (dev_count : Int) :
    self.unless_rejected mgr smoothed
      (self.detect mgr smoothed thresh sigma subpixel dev_count) (fun r =>
    r.self.queue.take self.queue.length = self.queue ∧
    (new_commands self r.self).map command.erase_args =
      [.enqueueWriteBuffer (count_buffer mgr) true 0 4 [0],
       .enqueueNDRangeKernel .det_hessian [] (smoothed.ni, smoothed.nj),
       .enqueueNDRangeKernel .init_kpt_map [] (smoothed.ni / 2, smoothed.nj / 2),
       .enqueueBarrier,
       .enqueueNDRangeKernel (extrema_kernel subpixel) [] (smoothed.ni, smoothed.nj),
       .enqueueBarrier,
       .enqueueReadBuffer (count_buffer mgr) true 0 4] ++
      (if self.initial_capacity smoothed.ni smoothed.nj ≤ int_to_unsigned dev_count then
        [.enqueueWriteBuffer (count_buffer mgr) true 0 4 [0],
         .enqueueNDRangeKernel .init_kpt_map [] (smoothed.ni / 2, smoothed.nj / 2),
         .enqueueBarrier,
         .enqueueNDRangeKernel (extrema_kernel subpixel) [] (smoothed.ni, smoothed.nj),
         .finish]
       else []) ∧
    (new_commands self r.self).countP (command.is_launch .det_hessian) = 1 ∧
    launches_separated (extrema_kernel subpixel) 2 (new_commands self r.self) = true) := by
  have hlt := int_to_unsigned_lt dev_count
  unfold hessian.unless_rejected
  by_cases hz : self.initial_capacity smoothed.ni smoothed.nj * 8 % 18446744073709551616 = 0
  · cases subpixel <;>
    simp [new_commands, new_allocs, working_images, hessian.detect, hessian.first_pass,
      hessian.assign_capacity_kpts_buffer_size_, hessian.assign_capacity_queue,
      cl_manager.create_buffer, cl_manager.create_image_fmt, sizeof, SIZE_T_RANGE, hz,
      CL_MEM_READ_WRITE, Nat.shiftRight_eq_div_pow]
  · have hz4 : ¬ self.initial_capacity smoothed.ni smoothed.nj * 4 % 18446744073709551616 = 0 := by
      omega
    by_cases h : self.initial_capacity smoothed.ni smoothed.nj ≤ int_to_unsigned dev_count
    · have hc8 : ¬ int_to_unsigned dev_count * 8 % 18446744073709551616 = 0 := by omega
      have hc4 : ¬ int_to_unsigned dev_count * 4 % 18446744073709551616 = 0 := by omega
      have h2 : ¬ int_to_unsigned dev_count < self.initial_capacity smoothed.ni smoothed.nj := by omega
      cases subpixel <;>
      simp [new_commands, new_allocs, hessian.detect, hessian.overflow_rerun,
        hessian.first_pass, hessian.num_kpts, hessian.enqueueNDRangeKernel,
        hessian.enqueue_queue, hessian.setArg_queue, hessian.enqueue_kernel,
        hessian.setArg_kernel, hessian.setArg_kpts_buffer_size_,
        hessian.enqueue_kpts_buffer_size_, h, h2, hz, hz4, hc8, hc4,
        cl_manager.create_buffer, cl_manager.create_image_fmt, cl_buffer.mem_size, sizeof,
        SIZE_T_RANGE, UNSIGNED_RANGE, extrema_kernel, kpts_elem, count_buffer, working_images,
        command.is_zero_write, command.is_launch, command.erase_args,
        command.capacity_matches, launches_separated,
        getArg_setArg_same, getArg_setArg_ne, hessian.assign_capacity_kernel,
        hessian.assign_capacity_queue, hessian.assign_capacity_kpts_buffer_size_,
        CL_MEM_READ_WRITE, Nat.shiftRight_eq_div_pow]
    · have h2 : int_to_unsigned dev_count < self.initial_capacity smoothed.ni smoothed.nj := by omega
      cases subpixel <;>
      simp [new_commands, new_allocs, hessian.detect, hessian.overflow_rerun,
        hessian.first_pass, hessian.num_kpts, hessian.enqueueNDRangeKernel,
        hessian.enqueue_queue, hessian.setArg_queue, hessian.enqueue_kernel,
        hessian.setArg_kernel, hessian.setArg_kpts_buffer_size_,
        hessian.enqueue_kpts_buffer_size_, h, h2, hz, hz4,
        cl_manager.create_buffer, cl_manager.create_image_fmt, cl_buffer.mem_size, sizeof,
        SIZE_T_RANGE, UNSIGNED_RANGE, extrema_kernel, kpts_elem, count_buffer, working_images,
        command.is_zero_write, command.is_launch, command.erase_args,
        command.capacity_matches, launches_separated,
        getArg_setArg_same, getArg_setArg_ne, hessian.assign_capacity_kernel,
        hessian.assign_capacity_queue, hessian.assign_capacity_kpts_buffer_size_,
        CL_MEM_READ_WRITE, Nat.shiftRight_eq_div_pow]

/-! ## Capacity argument of the extrema kernel -/

/-- C9: every extrema launch that `detect` submits (one in the first pass, a
second one in the overflow rerun) carries as argument 4 a capacity equal to
the element length of the coordinate buffer bound as argument 2 and of the
score buffer bound as argument 3 at that launch; a call that returns has
submitted at least one such launch.  (A call whose first buffer request has
zero bytes is rejected before it submits any launch.) -/
theorem detect_extrema_capacity_matches (self : hessian) (mgr : cl_manager) (smoothed : Image2D)
    (thresh sigma : cl_float) (subpixel : Bool) (dev_count : Int) :
    self.unless_rejected mgr smoothed
      (self.detect mgr smoothed thresh sigma subpixel dev_count) (fun r =>
    (new_commands self r.self).all command.capacity_matches = true ∧
    1 ≤ (new_commands self r.self).countP (command.is_launch (extrema_kernel subpixel)) ∧
    (new_commands self r.self).countP
      (command.is_launch (extrema_kernel (!subpixel))) = 0) := by
  have hlt := int_to_unsigned_lt dev_count
  unfold hessian.unless_rejected
  by_cases hz : self.initial_capacity smoothed.ni smoothed.nj * 8 % 18446744073709551616 = 0
  · cases subpixel <;>
    simp [new_commands, new_allocs, working_images, hessian.detect, hessian.first_pass,
      hessian.assign_capacity_kpts_buffer_size_, hessian.assign_capacity_queue,
      cl_manager.create_buffer, cl_manager.create_image_fmt, sizeof, SIZE_T_RANGE, hz,
      CL_MEM_READ_WRITE, Nat.shiftRight_eq_div_pow]
  · have hz4 : ¬ self.initial_capacity smoothed.ni smoothed.nj * 4 % 18446744073709551616 = 0 := by
      omega
    by_cases h : self.initial_capacity smoothed.ni smoothed.nj ≤ int_to_unsigned dev_count
    · have hc8 : ¬ int_to_unsigned dev_count * 8 % 18446744073709551616 = 0 := by omega
      have hc4 : ¬ int_to_unsigned dev_count * 4 % 18446744073709551616 = 0 := by omega
      have h2 : ¬ int_to_unsigned dev_count < self.initial_capacity smoothed.ni smoothed.nj := by omega
      cases subpixel <;>
      simp [new_commands, new_allocs, hessian.detect, hessian.overflow_rerun,
        hessian.first_pass, hessian.num_kpts, hessian.enqueueNDRangeKernel,
        hessian.enqueue_queue, hessian.setArg_queue, hessian.enqueue_kernel,
        hessian.setArg_kernel, hessian.setArg_kpts_buffer_size_,
        hessian.enqueue_kpts_buffer_size_, h, h2, hz, hz4, hc8, hc4,
        cl_manager.create_buffer, cl_manager.create_image_fmt, cl_buffer.mem_size, sizeof,
        SIZE_T_RANGE, UNSIGNED_RANGE, extrema_kernel, kpts_elem, count_buffer, working_images,
        command.is_zero_write, command.is_launch, command.erase_args,
        command.capacity_matches, launches_separated,
        getArg_setArg_same, getArg_setArg_ne, hessian.assign_capacity_kernel,
        hessian.assign_capacity_queue, hessian.assign_capacity_kpts_buffer_size_,
        CL_MEM_READ_WRITE, Nat.shiftRight_eq_div_pow]
    · have h2 : int_to_unsigned dev_count < self.initial_capacity smoothed.ni smoothed.nj := by omega
      cases subpixel <;>
      simp [new_commands, new_allocs, hessian.detect, hessian.overflow_rerun,
        hessian.first_pass, hessian.num_kpts, hessian.enqueueNDRangeKernel,
        hessian.enqueue_queue, hessian.setArg_queue, hessian.enqueue_kernel,
        hessian.setArg_kernel, hessian.setArg_kpts_buffer_size_,
        hessian.enqueue_kpts_buffer_size_, h, h2, hz, hz4,
        cl_manager.create_buffer, cl_manager.create_image_fmt, cl_buffer.mem_size, sizeof,
        SIZE_T_RANGE, UNSIGNED_RANGE, extrema_kernel, kpts_elem, count_buffer, working_images,
        command.is_zero_write, command.is_launch, command.erase_args,
        command.capacity_matches, launches_separated,
        getArg_setArg_same, getArg_setArg_ne, hessian.assign_capacity_kernel,
        hessian.assign_capacity_queue, hessian.assign_capacity_kpts_buffer_size_,
        CL_MEM_READ_WRITE, Nat.shiftRight_eq_div_pow]

/-! ## Pixel-format lookup -/

theorem pixel_format_map_new :
    cl_manager.new.pixel_format_map =
      [(VIL_PIXEL_FORMAT_FLOAT, ⟨.CL_INTENSITY, .CL_FLOAT⟩),
       (VIL_PIXEL_FORMAT_BYTE, ⟨.CL_INTENSITY, .CL_UNORM_INT8⟩)] := by
  decide

/-- C7: on a manager whose table was filled by the constructor (whatever was
allocated since), the registered tags are exactly the float tag and the byte
tag.  For a registered tag `create_image` returns a non-null handle to an
image of the registered format and makes one allocator call; for any other
tag it returns the null handle and leaves the manager, and so the allocation
log, unchanged. -/
theorem create_image_pixel_format (allocs : List alloc) (img : vil_image_view) :
    ((map_find cl_manager.new.pixel_format_map img.pixel_format).isSome = true ↔
      (img.pixel_format = VIL_PIXEL_FORMAT_FLOAT ∨ img.pixel_format = VIL_PIXEL_FORMAT_BYTE)) ∧
    (if img.pixel_format = VIL_PIXEL_FORMAT_FLOAT ∨ img.pixel_format = VIL_PIXEL_FORMAT_BYTE
     then
      (cl_manager.create_image ⟨cl_manager.new.pixel_format_map, allocs⟩ img).2 =
        some ⟨allocs.length,
          (if img.pixel_format = VIL_PIXEL_FORMAT_FLOAT then ⟨.CL_INTENSITY, .CL_FLOAT⟩
           else ⟨.CL_INTENSITY, .CL_UNORM_INT8⟩), img.ni, img.nj⟩ ∧
      (cl_manager.create_image ⟨cl_manager.new.pixel_format_map, allocs⟩ img).1 =
        ⟨cl_manager.new.pixel_format_map, allocs ++
          [alloc.Image2D (CL_MEM_READ_ONLY ||| CL_MEM_COPY_HOST_PTR)
            (if img.pixel_format = VIL_PIXEL_FORMAT_FLOAT then ⟨.CL_INTENSITY, .CL_FLOAT⟩
             else ⟨.CL_INTENSITY, .CL_UNORM_INT8⟩) img.ni img.nj 0 (some img.top_left_ptr)]⟩
     else
      cl_manager.create_image ⟨cl_manager.new.pixel_format_map, allocs⟩ img =
        (⟨cl_manager.new.pixel_format_map, allocs⟩, none)) := by
  rw [pixel_format_map_new]
  by_cases h1 : img.pixel_format = VIL_PIXEL_FORMAT_FLOAT
  · simp [cl_manager.create_image, map_find, h1]
  · by_cases h2 : img.pixel_format = VIL_PIXEL_FORMAT_BYTE
    · have h3 : VIL_PIXEL_FORMAT_BYTE ≠ VIL_PIXEL_FORMAT_FLOAT := by decide
      simp [cl_manager.create_image, map_find, h2, h3]
    · simp [cl_manager.create_image, map_find, h1, h2]

/-! ## Double-precision extension -/

theorem whitespace_tokens_nil : whitespace_tokens [] = [] := by
  simp [whitespace_tokens, List.splitOnP_nil]

theorem whitespace_tokens_cons_space (c : Char) (cs : List Char) (h : isspace c = true) :
    whitespace_tokens (c :: cs) = whitespace_tokens cs := by
  simp [whitespace_tokens, List.splitOnP_cons, h]

theorem extract_cons_space (c : Char) (cs : List Char) (h : isspace c = true) :
    extract (c :: cs) = extract cs := by
  simp [extract, List.dropWhile_cons, h]

theorem whitespace_tokens_append (tok rest : List Char)
    (htok : ∀ x ∈ tok, ¬ (isspace x = true)) (hne : tok ≠ [])
    (hrest : ∀ w r, rest = w :: r → isspace w = true) :
    whitespace_tokens (tok ++ rest) = tok :: whitespace_tokens rest := by
  cases rest with
  | nil =>
    rw [whitespace_tokens_nil, List.append_nil, whitespace_tokens,
      List.splitOnP_eq_single isspace tok htok]
    simp [hne]
  | cons w r =>
    have hw : isspace w = true := hrest w r rfl
    rw [whitespace_tokens_cons_space w r hw, whitespace_tokens,
      List.splitOnP_first isspace tok htok w hw r]
    simp [hne, whitespace_tokens]

theorem whitespace_tokens_extract (s : List Char) :
    whitespace_tokens s =
      match extract s with
      | none => []
      | some (tok, rest) => tok :: whitespace_tokens rest := by
  induction s with
  | nil => simp [whitespace_tokens_nil, extract]
  | cons c cs ih =>
    by_cases h : isspace c = true
    · rw [whitespace_tokens_cons_space c cs h, extract_cons_space c cs h]
      exact ih
    · have hf : isspace c = false := by simpa using h
      have hd : (c :: cs).dropWhile isspace = c :: cs := by
        simp [List.dropWhile_cons, hf]
      have hne : (c :: cs).takeWhile (fun c => !isspace c) ≠ [] := by
        simp [List.takeWhile_cons, hf]
      have hex : extract (c :: cs) =
          some ((c :: cs).takeWhile (fun c => !isspace c),
            (c :: cs).dropWhile (fun c => !isspace c)) := by
        unfold extract
        simp only [hd]
        rw [if_neg hne]
      rw [hex]
      have htok : ∀ x ∈ (c :: cs).takeWhile (fun c => !isspace c),
          ¬ (isspace x = true) := by
        intro x hx
        have := List.mem_takeWhile_imp hx
        simpa using this
      have hrest : ∀ w r, (c :: cs).dropWhile (fun c => !isspace c) = w :: r →
          isspace w = true := by
        intro w r hwr
        have := List.head_dropWhile_not (fun c => !isspace c) (c :: cs)
          (by rw [hwr]; simp)
        simpa [hwr] using this
      have := whitespace_tokens_append _ _ htok hne hrest
      rw [List.takeWhile_append_dropWhile] at this
      exact this

theorem extract_length (s tok rest : List Char) (h : extract s = some (tok, rest)) :
    rest.length < s.length := by
  unfold extract at h
  simp only at h
  split at h
  · exact absurd h (by simp)
  · rename_i hne
    simp only [Option.some.injEq, Prod.mk.injEq] at h
    obtain ⟨h1, h2⟩ := h
    have hlen : (s.dropWhile isspace).length ≤ s.length :=
      (List.dropWhile_sublist _).length_le
    have happ := congrArg List.length
      (List.takeWhile_append_dropWhile (fun c => !isspace c) (s.dropWhile isspace))
    rw [List.length_append, h2] at happ
    have hpos : 0 < ((s.dropWhile isspace).takeWhile (fun c => !isspace c)).length :=
      List.length_pos.mpr hne
    omega

theorem scan_extensions_eq (fuel : Nat) (s : List Char) (has : Bool)
    (h : s.length < fuel) :
    scan_extensions fuel s has = (has || decide (double_extension ∈ whitespace_tokens s)) := by
  induction fuel generalizing s has with
  | zero => omega
  | succ n ih =>
    rw [whitespace_tokens_extract s]
    unfold scan_extensions
    cases hex : extract s with
    | none => simp
    | some p =>
      obtain ⟨tok, rest⟩ := p
      have hlt := extract_length s tok rest hex
      simp only
      rw [ih rest _ (by omega)]
      by_cases ht : tok = double_extension
      · simp [ht]
      · have ht2 : ¬ double_extension = tok := fun e => ht e.symm
        simp [ht, ht2]

theorem has_double_extension_tokens (buf : List Char) (len : Nat) :
    has_double_extension buf len = true ↔
      double_extension ∈ whitespace_tokens (buf.take len) := by
  unfold has_double_extension
  rw [scan_extensions_eq _ _ _ (by
    have := List.length_take_le len buf
    omega)]
  simp

/-- C10, the code at the failing input: the device string
`cl_khr_icd cl_khr_fp64`, split on whitespace, has the token `cl_khr_fp64`,
but the query returns it with its terminating zero byte and a length of 23
that counts that byte, the stream is built from all 23 bytes, its last token
is `cl_khr_fp64` followed by the zero byte, and the flag reported is false.
The same string with the two extensions in the other order is reported true.
In general, when the string and its terminator fit in the 1024-byte buffer the
flag is set exactly when the string with the zero byte appended has the token;
when they do not fit, the unchecked query wrote nothing and the flag depends
only on the previous contents of `buf` and `len`. -/
theorem report_system_specs_terminator_slip (ext buf0 : List Char) (len0 : Nat) :
    double_extension ∈ whitespace_tokens
      ['c', 'l', '_', 'k', 'h', 'r', '_', 'i', 'c', 'd', ' ',
       'c', 'l', '_', 'k', 'h', 'r', '_', 'f', 'p', '6', '4'] ∧
    clGetDeviceInfo_EXTENSIONS 1024
      ['c', 'l', '_', 'k', 'h', 'r', '_', 'i', 'c', 'd', ' ',
       'c', 'l', '_', 'k', 'h', 'r', '_', 'f', 'p', '6', '4'] =
      some (['c', 'l', '_', 'k', 'h', 'r', '_', 'i', 'c', 'd', ' ',
             'c', 'l', '_', 'k', 'h', 'r', '_', 'f', 'p', '6', '4', Char.ofNat 0], 23) ∧
    report_system_specs
      ['c', 'l', '_', 'k', 'h', 'r', '_', 'i', 'c', 'd', ' ',
       'c', 'l', '_', 'k', 'h', 'r', '_', 'f', 'p', '6', '4'] buf0 len0 = false ∧
    report_system_specs
      ['c', 'l', '_', 'k', 'h', 'r', '_', 'f', 'p', '6', '4', ' ',
       'c', 'l', '_', 'k', 'h', 'r', '_', 'i', 'c', 'd'] buf0 len0 = true ∧
    (if ext.length + 1 ≤ 1024 then
      (report_system_specs ext buf0 len0 = true ↔
        double_extension ∈ whitespace_tokens (ext ++ [Char.ofNat 0]))
     else report_system_specs ext buf0 len0 = has_double_extension buf0 len0) := by
  refine ⟨by decide, by decide, ?_, ?_, ?_⟩
  · have h : clGetDeviceInfo_EXTENSIONS 1024
        ['c', 'l', '_', 'k', 'h', 'r', '_', 'i', 'c', 'd', ' ',
         'c', 'l', '_', 'k', 'h', 'r', '_', 'f', 'p', '6', '4'] =
        some (['c', 'l', '_', 'k', 'h', 'r', '_', 'i', 'c', 'd', ' ',
               'c', 'l', '_', 'k', 'h', 'r', '_', 'f', 'p', '6', '4', Char.ofNat 0], 23) := by
      decide
    unfold report_system_specs
    rw [h]
    simp only
    decide
  · have h : clGetDeviceInfo_EXTENSIONS 1024
        ['c', 'l', '_', 'k', 'h', 'r', '_', 'f', 'p', '6', '4', ' ',
         'c', 'l', '_', 'k', 'h', 'r', '_', 'i', 'c', 'd'] =
        some (['c', 'l', '_', 'k', 'h', 'r', '_', 'f', 'p', '6', '4', ' ',
               'c', 'l', '_', 'k', 'h', 'r', '_', 'i', 'c', 'd', Char.ofNat 0], 23) := by
      decide
    unfold report_system_specs
    rw [h]
    simp only
    decide
  · unfold report_system_specs clGetDeviceInfo_EXTENSIONS
    split
    · simp only
      rw [has_double_extension_tokens]
      have hlen : (ext ++ [Char.ofNat 0]).length = ext.length + 1 := by simp
      rw [← hlen, List.take_length]
    · rfl

end viscl
